import Mathlib

/-!
# Verification of the Ecommerce ELT pipeline

Shallow embedding of `cloud_composer_el_script/ecommerce_extract_load_pipeline.py`.

The module reads environment configuration, defines `preprocess_csv` (pandas
`read_csv(file_obj, on_bad_lines='skip', quoting=3)` followed by
`df.to_csv(index=False)`), a Google-Drive-to-GCS transfer function, a static
table registry `TABLES_CONFIG`, and an Airflow DAG chaining a stage task and a
load task per table.

Text is modelled as `List Char`, bytes as `List Nat`.  The pandas calls are
modelled at the level the configured options determine: quoting is disabled on
read (`quoting=3` = QUOTE_NONE), so records are split purely on the comma;
blank lines are skipped; short records are padded with missing values up to
the running expectation, so the effective bad-line bound is the larger of the
header width and the first data record's width; records with more fields than
that are skipped (`on_bad_lines`); when the first data record is wider than
the header the leading extra columns form the implicit index, which
`to_csv(index=False)` omits.  Per column the C parser's dtype inference is
modelled: integer columns (printed canonically), integer/decimal columns with
missing values (printed as floats, exactly for tokens of at most 15
significant digits whose float repr needs no exponent form), boolean columns,
and object columns (tokens kept verbatim).  The numeric converters
(`str_to_int64`, `xstrtod`) skip surrounding C-isspace whitespace, so token
recognition and value parsing strip it.  Numeric-looking tokens outside the
exactly-representable domain (exponent forms, inf, more than 15 significant
digits) are kept verbatim by the model; the theorems below never rely on
inputs in that zone, and hypotheses about object columns demand a witness
token that is not numeric-looking even in a broad sense (`numLikeBroad`), so
that the model and pandas agree on the object classification wherever a
theorem applies.  On write `to_csv` uses minimal quoting: a field containing
the delimiter, the quote character or a line terminator is wrapped in quotes
with inner quotes doubled; missing values print as the empty string.
-/

namespace Ecom

abbrev Chars := List Char

/-! ## Line and field splitting (C parser, QUOTE_NONE) -/

/-- Split on the line terminators the C parser recognises: LF, CRLF, CR.
The boolean records that the previous character was a CR, so that the LF of a
CRLF pair is swallowed rather than ending a second line. -/
def splitLinesAux : Chars → Chars → Bool → List Chars
  | [], acc, _ => [acc.reverse]
  | c :: rest, acc, afterCR =>
    if c = '\n' then
      if afterCR then splitLinesAux rest [] false
      else acc.reverse :: splitLinesAux rest [] false
    else if c = '\r' then acc.reverse :: splitLinesAux rest [] true
    else splitLinesAux rest (c :: acc) false

def splitLinesL (s : Chars) : List Chars := splitLinesAux s [] false

/-- Split a record on the field delimiter; quoting is disabled (`quoting=3`). -/
def splitFieldsAux : Chars → Chars → List Chars
  | [], acc => [acc.reverse]
  | c :: rest, acc =>
    if c = ',' then acc.reverse :: splitFieldsAux rest []
    else splitFieldsAux rest (c :: acc)

def splitFieldsL (s : Chars) : List Chars := splitFieldsAux s []

/-! ## Missing-value tokens (pandas default `na_values`) -/

def naTokens : List Chars :=
  ([""] ++ ["#N/A", "#N/A N/A", "#NA", "-1.#IND", "-1.#QNAN", "-NaN", "-nan",
    "1.#IND", "1.#QNAN", "<NA>", "N/A", "NA", "NULL", "NaN", "None",
    "n/a", "nan", "null"]).map String.data

def isNA (c : Chars) : Bool := naTokens.contains c

/-! ## Numeric tokens and their canonical float64/int64 rendering -/

/-- The C-isspace characters: what the C parser's numeric converters skip
around a token (space, tab, LF, VT, FF, CR). -/
def isWsChar (c : Char) : Bool :=
  c = ' ' || c = '\t' || c = '\n' || c = '\x0B' || c = '\x0C' || c = '\r'

/-- Strip surrounding C-isspace whitespace, as `str_to_int64` and `xstrtod`
do before and after the numeric text. -/
def stripWsEnds (l : Chars) : Chars :=
  ((l.dropWhile isWsChar).reverse.dropWhile isWsChar).reverse

def splitSign : Chars → Bool × Chars
  | '-' :: r => (true, r)
  | '+' :: r => (false, r)
  | l => (false, l)

def isIntLit (l : Chars) : Bool :=
  !(splitSign (stripWsEnds l)).2.isEmpty && (splitSign (stripWsEnds l)).2.all Char.isDigit

def digitsToNat (ds : Chars) : Nat := ds.foldl (fun a c => a * 10 + (c.toNat - 48)) 0

def intCellValue (l : Chars) : Int :=
  if (splitSign (stripWsEnds l)).1 then -(digitsToNat (splitSign (stripWsEnds l)).2 : Int)
  else (digitsToNat (splitSign (stripWsEnds l)).2 : Int)

def int64InRange (l : Chars) : Bool :=
  decide (-(9223372036854775808 : Int) ≤ intCellValue l) &&
  decide (intCellValue l ≤ 9223372036854775807)

def digitChar (n : Nat) : Char := Char.ofNat (48 + n)

def natToCharsAux : Nat → Nat → Chars → Chars
  | 0, _, acc => acc
  | fuel + 1, n, acc => if n = 0 then acc else natToCharsAux fuel (n / 10) (digitChar (n % 10) :: acc)

def natToChars (n : Nat) : Chars := if n = 0 then ['0'] else natToCharsAux n n []

def intToChars (i : Int) : Chars :=
  if i < 0 then '-' :: natToChars i.natAbs else natToChars i.natAbs

/-- int64 rendering of an integer token (canonical decimal, sign dropped on zero). -/
def renderIntCell (l : Chars) : Chars := intToChars (intCellValue l)

/-- Decompose a plain decimal token `[sign] intpart '.' fracpart`, after
stripping the surrounding whitespace `xstrtod` skips. -/
def decParts (l : Chars) : Option (Bool × Chars × Chars) :=
  match splitSign (stripWsEnds l) with
  | (n, body) =>
    match body.dropWhile Char.isDigit with
    | '.' :: frac =>
      if (!(body.takeWhile Char.isDigit).isEmpty || !frac.isEmpty) && frac.all Char.isDigit then
        some (n, body.takeWhile Char.isDigit, frac)
      else none
    | _ => none

def stripLeadZeros (l : Chars) : Chars :=
  if (l.dropWhile (fun c => c = '0')).isEmpty then ['0'] else l.dropWhile (fun c => c = '0')

def stripTrailZeros (l : Chars) : Chars := (l.reverse.dropWhile (fun c => c = '0')).reverse

/-- Python `repr` of the float64 a plain decimal token denotes, on the domain
where that repr is the token with zeros normalised (guarded by `decGuardOk`). -/
def canonDecOf (n : Bool) (intp frac : Chars) : Chars :=
  (if n then ['-'] else []) ++ stripLeadZeros intp ++ '.' ::
    (if (stripTrailZeros frac).isEmpty then ['0'] else stripTrailZeros frac)

/-- The token has at most 15 significant digits and its float64 repr avoids
exponent notation, so `canonDecOf` is exactly the repr pandas would print. -/
def decGuardOk (intp frac : Chars) : Bool :=
  decide ((if stripLeadZeros intp = ['0']
      then ((stripTrailZeros frac).dropWhile (fun c => c = '0')).length
      else (stripLeadZeros intp).length + (stripTrailZeros frac).length) ≤ 15) &&
  (!(decide (stripLeadZeros intp = ['0'])) || (stripTrailZeros frac).isEmpty ||
    decide (((stripTrailZeros frac).takeWhile (fun c => c = '0')).length ≤ 3))

/-- Integer token small enough that its float64 image is exact and printed
without exponent notation. -/
def intSmall (l : Chars) : Bool := decide ((intCellValue l).natAbs ≤ 999999999999999)

/-- Token eligible for the exactly-modelled float64 column domain. -/
def floatTok (l : Chars) : Bool :=
  (isIntLit l && intSmall l) ||
  (match decParts l with
   | some (_, ip, fr) => decGuardOk ip fr
   | none => false)

def renderFloatTok (l : Chars) : Chars :=
  if isIntLit l then renderIntCell l ++ ['.', '0']
  else
    match decParts l with
    | some (n, ip, fr) => canonDecOf n ip fr
    | none => l

def trueLits : List Chars := (["TRUE", "True", "true"]).map String.data
def falseLits : List Chars := (["FALSE", "False", "false"]).map String.data
def isBoolLit (l : Chars) : Bool := trueLits.contains l || falseLits.contains l

/-! ## A broad over-approximation of what the C parser may convert to a
numeric dtype: used only in theorem hypotheses, so that a column the theorems
treat as object is object for pandas as well. -/

def toLowerL (l : Chars) : Chars := l.map Char.toLower

def infNanLike (l : Chars) : Bool :=
  toLowerL l = ("inf").data || toLowerL l = ("infinity").data || toLowerL l = ("nan").data

def mantissaShape (l : Chars) : Bool :=
  match l.dropWhile Char.isDigit with
  | [] => !l.isEmpty
  | '.' :: fr => (!(l.takeWhile Char.isDigit).isEmpty || !fr.isEmpty) && fr.all Char.isDigit
  | _ => false

def expDigitsShape (l : Chars) : Bool :=
  !(splitSign l).2.isEmpty && (splitSign l).2.all Char.isDigit

def extNumShape (l : Chars) : Bool :=
  match splitSign (stripWsEnds l) with
  | (_, body) =>
    infNanLike body ||
    (match body.findIdx? (fun c => c = 'e' || c = 'E') with
     | none => mantissaShape body
     | some i => mantissaShape (body.take i) && expDigitsShape (body.drop (i + 1)))

def numLikeBroad (l : Chars) : Bool := isIntLit l || floatTok l || extNumShape l

/-! ## Column dtype inference and cell rendering -/

inductive ColKind
  | intCol
  | floatCol
  | boolCol
  | objCol
  | allNACol
deriving DecidableEq

def classify (cells : List Chars) : ColKind :=
  if (cells.filter (fun c => !isNA c)).isEmpty then .allNACol
  else if (cells.filter (fun c => !isNA c)).all (fun c => isIntLit c && int64InRange c) &&
      cells.all (fun c => !isNA c) then .intCol
  else if (cells.filter (fun c => !isNA c)).all floatTok then .floatCol
  else if (cells.filter (fun c => !isNA c)).all isBoolLit then .boolCol
  else .objCol

def renderCell (k : ColKind) (c : Chars) : Chars :=
  if isNA c then []
  else
    match k with
    | .intCol => renderIntCell c
    | .floatCol => renderFloatTok c
    | .boolCol => if trueLits.contains c then ("True").data else ("False").data
    | _ => c

/-! ## Header normalisation -/

def fixUnnamedAux (i : Nat) : List Chars → List Chars
  | [] => []
  | f :: rest =>
    (if f.isEmpty then ("Unnamed: ").data ++ natToChars i else f) :: fixUnnamedAux (i + 1) rest

def fixUnnamed (hs : List Chars) : List Chars := fixUnnamedAux 0 hs

def mangleAux (seen : List Chars) : List Chars → List Chars
  | [] => []
  | n :: rest =>
    (if seen.count n = 0 then n else n ++ '.' :: natToChars (seen.count n)) ::
      mangleAux (n :: seen) rest

def mangle (hs : List Chars) : List Chars := mangleAux [] hs

/-! ## `pd.read_csv(file_obj, on_bad_lines='skip', quoting=3)` -/

/-- The bad-line bound: the tokenizer pads short records up to the running
expectation, so after the header and the first data record the expectation is
the larger of the two widths; records wider than it are the bad lines. -/
def expectedWidth (headerFs : List Chars) (rows : List (List Chars)) : Nat :=
  match rows with
  | [] => headerFs.length
  | r :: _ => max headerFs.length r.length

def readCsv (s : Chars) : Option (List Chars × List (List Chars)) :=
  match (splitLinesL s).filter (fun l => !l.isEmpty) with
  | [] => none
  | hl :: dl =>
    some (mangle (fixUnnamed (splitFieldsL hl)),
      ((dl.map splitFieldsL).filter
          (fun r => decide (r.length ≤ expectedWidth (splitFieldsL hl) (dl.map splitFieldsL)))).map
        (fun r =>
          (r ++ List.replicate
              (max (splitFieldsL hl).length (expectedWidth (splitFieldsL hl) (dl.map splitFieldsL))
                - r.length) []).drop
            (expectedWidth (splitFieldsL hl) (dl.map splitFieldsL) - (splitFieldsL hl).length)))

/-! ## `df.to_csv(index=False)` -/

def joinFields : List Chars → Chars
  | [] => []
  | [f] => f
  | f :: g :: t => f ++ ',' :: joinFields (g :: t)

def needsQuote (f : Chars) : Bool :=
  f.any (fun c => c = ',' || c = '"' || c = '\n' || c = '\r')

def escQuotes : Chars → Chars
  | [] => []
  | c :: r => if c = '"' then '"' :: '"' :: escQuotes r else c :: escQuotes r

def quoteField (f : Chars) : Chars :=
  if needsQuote f then '"' :: escQuotes f ++ ['"'] else f

def renderLine (fs : List Chars) : Chars := joinFields (fs.map quoteField) ++ ['\n']

def toCsv (names : List Chars) (rows : List (List Chars)) : Chars :=
  renderLine names ++
    ((rows.map (fun r =>
        (((List.range names.length).map
            (fun i => classify (rows.map (fun r2 => r2.getD i [])))).zip r).map
          (fun p => renderCell p.1 p.2))).map renderLine).flatten

/-! ## `preprocess_csv` -/

def sanitizeDecoded (s : Chars) : Except String Chars :=
  match readCsv s with
  | none => .error ("Error during CSV preprocessing: no columns to parse from file")
  | some (names, rows) => .ok (toCsv names rows)

def contByte (b : Nat) : Bool := 128 ≤ b && b ≤ 191

/-- Strict UTF-8 decoding (what `pd.read_csv` applies to the byte stream). -/
def decodeUtf8 : List Nat → Option Chars
  | [] => some []
  | b :: rest =>
    if b ≤ 127 then (decodeUtf8 rest).map (fun cs => Char.ofNat b :: cs)
    else if 194 ≤ b && b ≤ 223 then
      match rest with
      | b1 :: r2 =>
        if contByte b1 then
          (decodeUtf8 r2).map (fun cs => Char.ofNat ((b - 192) * 64 + (b1 - 128)) :: cs)
        else none
      | _ => none
    else if 224 ≤ b && b ≤ 239 then
      match rest with
      | b1 :: b2 :: r2 =>
        if (if b = 224 then 160 else 128) ≤ b1 && b1 ≤ (if b = 237 then 159 else 191) &&
            contByte b2 then
          (decodeUtf8 r2).map
            (fun cs => Char.ofNat ((b - 224) * 4096 + (b1 - 128) * 64 + (b2 - 128)) :: cs)
        else none
      | _ => none
    else if 240 ≤ b && b ≤ 244 then
      match rest with
      | b1 :: b2 :: b3 :: r2 =>
        if (if b = 240 then 144 else 128) ≤ b1 && b1 ≤ (if b = 244 then 143 else 191) &&
            contByte b2 && contByte b3 then
          (decodeUtf8 r2).map
            (fun cs =>
              Char.ofNat ((b - 240) * 262144 + (b1 - 128) * 4096 + (b2 - 128) * 64 + (b3 - 128))
                :: cs)
        else none
      | _ => none
    else none

/-- `preprocess_csv`: decode, parse, re-serialise; any failure is wrapped into
`ValueError("Error during CSV preprocessing: ...")`, modelled as `.error`. -/
def preprocess_csv (bs : List Nat) : Except String Chars :=
  match decodeUtf8 bs with
  | none => .error ("Error during CSV preprocessing: undecodable bytes")
  | some cs => sanitizeDecoded cs

/-- The inputs `preprocess_csv` can parse at all: decodable bytes with at
least one non-blank line. -/
def parseableTabular (bs : List Nat) : Bool :=
  match decodeUtf8 bs with
  | none => false
  | some cs => !((splitLinesL cs).filter (fun l => !l.isEmpty)).isEmpty

def isOkE (e : Except String Chars) : Bool :=
  match e with
  | .ok _ => true
  | .error _ => false

instance exceptStringCharsDecEq : DecidableEq (Except String Chars) := fun x y =>
  match x, y with
  | .error a, .error b =>
    if h : a = b then .isTrue (by rw [h]) else .isFalse (fun hc => h (Except.error.inj hc))
  | .error _, .ok _ => .isFalse (fun hc => Except.noConfusion hc)
  | .ok _, .error _ => .isFalse (fun hc => Except.noConfusion hc)
  | .ok a, .ok b =>
    if h : a = b then .isTrue (by rw [h]) else .isFalse (fun hc => h (Except.ok.inj hc))

/-- A field value free of the delimiter, the quote character and the line
terminators: the emitter passes such a field through unquoted. -/
def cleanCellB (f : Chars) : Bool :=
  f.all (fun c => !(c = ',' || c = '"' || c = '\n' || c = '\r'))

/-! ## Environment configuration (module lines 21-23)

`os.getenv` with a single argument: absent variables yield `None` (here
`none`); the module performs no validation of the three values. -/

def Env := String → Option String

def GCS_BUCKET (env : Env) : Option String := env ("GCS_BUCKET_NAME")

def GDRIVE_FOLDER_ID (env : Env) : Option String := env ("GDRIVE_FOLDER_ID")

def PROJECT_ID (env : Env) : Option String := env ("GCP_PROJECT_ID")

/-! ## Google Drive lookup / download / stage (`gdrive_to_gcs`) -/

structure DriveFile where
  name : String
  trashed : Bool
  content : List Nat
deriving DecidableEq

inductive PipelineError
  | notFound
  | malformedInput
deriving DecidableEq

/-- The files the Drive query
`'{folder} in parents and name='{file_name}' and trashed=false'` returns. -/
def matchingFiles (folder : List DriveFile) (fileName : String) : List DriveFile :=
  folder.filter (fun f => f.name == fileName && !f.trashed)

/-- Lookup plus download: empty result raises `FileNotFoundError`; otherwise
the first listed file's bytes are downloaded in full (`MediaIoBaseDownload`
loop until `done`). -/
def gdrive_fetch (folder : List DriveFile) (fileName : String) :
    Except PipelineError (List Nat) :=
  match matchingFiles folder fileName with
  | [] => .error .notFound
  | f :: _ => .ok f.content

/-- `gdrive_to_gcs`: fetch, preprocess, upload to
`{gcs_folder_name}/{file_name}`; returns the blob path and uploaded text. -/
def gdrive_to_gcs (folder : List DriveFile) (fileName gcsFolderName : String) :
    Except PipelineError (String × Chars) :=
  match gdrive_fetch folder fileName with
  | .error e => .error e
  | .ok bytes =>
    match preprocess_csv bytes with
    | .error _ => .error .malformedInput
    | .ok clean => .ok (gcsFolderName ++ "/" ++ fileName, clean)

/-! ## Table registry (`TABLES_CONFIG`, module lines 123-271)

The source builds each `destination_table` with the f-string
`f'{project_id}.ecommerce_data.<table>'`; the name `project_id` is free in
the module (the environment constant is spelled `PROJECT_ID`), so it is
modelled here as an explicit parameter. -/

structure SchemaField where
  name : String
  type : String
  mode : String
deriving DecidableEq

structure TableConfig where
  table_name : String
  gcs_folder_name : String
  destination_table : String
  schema_fields : List SchemaField
deriving DecidableEq

def TABLES_CONFIG (project_id : String) : List TableConfig :=
  [⟨"olist_closed_deals", "data", project_id ++ ".ecommerce_data.olist_closed_deals",
    [⟨"mql_id", "STRING", "NULLABLE"⟩,
     ⟨"seller_id", "STRING", "NULLABLE"⟩,
     ⟨"sdr_id", "STRING", "NULLABLE"⟩,
     ⟨"sr_id", "STRING", "NULLABLE"⟩,
     ⟨"won_date", "STRING", "NULLABLE"⟩,
     ⟨"business_segment", "STRING", "NULLABLE"⟩,
     ⟨"lead_type", "STRING", "NULLABLE"⟩,
     ⟨"lead_behaviour_profile", "STRING", "NULLABLE"⟩,
     ⟨"has_comnpany", "STRING", "NULLABLE"⟩,
     ⟨"has_gtin", "STRING", "NULLABLE"⟩,
     ⟨"average_stock", "STRING", "NULLABLE"⟩,
     ⟨"business_type", "STRING", "NULLABLE"⟩,
     ⟨"declared_product_catalog_size", "STRING", "NULLABLE"⟩,
     ⟨"declared_monthly_revenue", "STRING", "NULLABLE"⟩]⟩,
   ⟨"olist_customers", "data", project_id ++ ".ecommerce_data.olist_customers",
    [⟨"customer_id", "STRING", "NULLABLE"⟩,
     ⟨"customer_unique_id", "STRING", "NULLABLE"⟩,
     ⟨"customer_zip_code_prefix", "STRING", "NULLABLE"⟩,
     ⟨"customer_city", "STRING", "NULLABLE"⟩,
     ⟨"customer_state", "STRING", "NULLABLE"⟩]⟩,
   ⟨"olist_geolocation", "data", project_id ++ ".ecommerce_data.olist_geolocation",
    [⟨"geolocation_zip_code_prefix", "STRING", "NULLABLE"⟩,
     ⟨"geolocation_lat", "STRING", "NULLABLE"⟩,
     ⟨"geolocation_lng", "STRING", "NULLABLE"⟩,
     ⟨"geolocation_city", "STRING", "NULLABLE"⟩,
     ⟨"geolocation_state", "STRING", "NULLABLE"⟩]⟩,
   ⟨"olist_marketing_qualified_leads", "data",
    project_id ++ ".ecommerce_data.olist_marketing_qualified_leads",
    [⟨"mql_id", "STRING", "NULLABLE"⟩,
     ⟨"first_contact_date", "STRING", "NULLABLE"⟩,
     ⟨"landing_page_id", "STRING", "NULLABLE"⟩,
     ⟨"origin", "STRING", "NULLABLE"⟩]⟩,
   ⟨"olist_order_items", "data", project_id ++ ".ecommerce_data.olist_order_items",
    [⟨"order_id", "STRING", "NULLABLE"⟩,
     ⟨"order_item_id", "STRING", "NULLABLE"⟩,
     ⟨"product_id", "STRING", "NULLABLE"⟩,
     ⟨"seller_id", "STRING", "NULLABLE"⟩,
     ⟨"shipping_limit_date", "STRING", "NULLABLE"⟩,
     ⟨"price", "STRING", "NULLABLE"⟩,
     ⟨"freight_value", "STRING", "NULLABLE"⟩]⟩,
   ⟨"olist_order_payments", "data", project_id ++ ".ecommerce_data.olist_order_payments",
    [⟨"order_id", "STRING", "NULLABLE"⟩,
     ⟨"payment_sequential", "STRING", "NULLABLE"⟩,
     ⟨"payment_type", "STRING", "NULLABLE"⟩,
     ⟨"payment_installments", "STRING", "NULLABLE"⟩,
     ⟨"payment_value", "STRING", "NULLABLE"⟩]⟩,
   ⟨"olist_order_reviews", "data", project_id ++ ".ecommerce_data.olist_order_reviews",
    [⟨"review_id", "STRING", "NULLABLE"⟩,
     ⟨"order_id", "STRING", "NULLABLE"⟩,
     ⟨"review_score", "STRING", "NULLABLE"⟩,
     ⟨"review_comment_title", "STRING", "NULLABLE"⟩,
     ⟨"review_comment_message", "STRING", "NULLABLE"⟩,
     ⟨"review_creation_date", "STRING", "NULLABLE"⟩,
     ⟨"review_answer_timestamp", "STRING", "NULLABLE"⟩]⟩,
   ⟨"olist_orders", "data", project_id ++ ".ecommerce_data.olist_orders",
    [⟨"order_id", "STRING", "NULLABLE"⟩,
     ⟨"customer_id", "STRING", "NULLABLE"⟩,
     ⟨"order_status", "STRING", "NULLABLE"⟩,
     ⟨"order_purchase_timestamp", "STRING", "NULLABLE"⟩,
     ⟨"order_approved_at", "STRING", "NULLABLE"⟩,
     ⟨"order_delivered_carrier_date", "STRING", "NULLABLE"⟩,
     ⟨"order_delivered_customer_date", "STRING", "NULLABLE"⟩,
     ⟨"order_estimated_delivery_date", "STRING", "NULLABLE"⟩]⟩,
   ⟨"olist_products", "data", project_id ++ ".ecommerce_data.olist_products",
    [⟨"product_id", "STRING", "NULLABLE"⟩,
     ⟨"product_category_name", "STRING", "NULLABLE"⟩,
     ⟨"product_name_lenght", "STRING", "NULLABLE"⟩,
     ⟨"product_description_lenght", "STRING", "NULLABLE"⟩,
     ⟨"product_photos_qty", "STRING", "NULLABLE"⟩,
     ⟨"product_weight_g", "STRING", "NULLABLE"⟩,
     ⟨"product_length_cm", "STRING", "NULLABLE"⟩,
     ⟨"product_height_cm", "STRING", "NULLABLE"⟩,
     ⟨"product_width_cm", "STRING", "NULLABLE"⟩]⟩,
   ⟨"olist_sellers", "data", project_id ++ ".ecommerce_data.olist_sellers",
    [⟨"seller_id", "STRING", "NULLABLE"⟩,
     ⟨"seller_zip_code_prefix", "STRING", "NULLABLE"⟩,
     ⟨"seller_city", "STRING", "NULLABLE"⟩,
     ⟨"seller_state", "STRING", "NULLABLE"⟩]⟩,
   ⟨"olist_product_category_name", "data",
    project_id ++ ".ecommerce_data.olist_product_category_name",
    [⟨"product_category_name", "STRING", "NULLABLE"⟩,
     ⟨"product_category_name_english", "STRING", "NULLABLE"⟩]⟩]

/-! ## DAG assembly (module lines 275-318) -/

structure LoadParams where
  bucket : Option String
  source_objects : List String
  destination_project_dataset_table : String
  schema_fields : List SchemaField
  write_disposition : String
  skip_leading_rows : Nat
  source_format : String
  field_delimiter : String
deriving DecidableEq

inductive Task
  | stage (task_id : String) (file_name : String) (gcs_folder_name : String)
  | load (task_id : String) (params : LoadParams)
deriving DecidableEq

def taskId : Task → String
  | .stage i _ _ => i
  | .load i _ => i

/-- The blob path `'{gcs_folder_name}/{file_name}'` the stage task uploads to. -/
def stagePath : Task → Option String
  | .stage _ fn gf => some (gf ++ "/" ++ fn)
  | .load _ _ => none

def loadParamsOf : Task → Option LoadParams
  | .stage _ _ _ => none
  | .load _ p => some p

/-- The `PythonOperator` with `op_kwargs` from the loop body. -/
def mkStage (cfg : TableConfig) : Task :=
  .stage ("dump_gdrive_to_gcs_" ++ cfg.table_name) (cfg.table_name ++ ".csv")
    cfg.gcs_folder_name

/-- The `GCSToBigQueryOperator` from the loop body. -/
def mkLoad (bucket : Option String) (cfg : TableConfig) : Task :=
  .load ("load_gcs_to_bq_" ++ cfg.table_name)
    ⟨bucket, [cfg.gcs_folder_name ++ "/" ++ cfg.table_name ++ ".csv"],
     cfg.destination_table, cfg.schema_fields, "WRITE_TRUNCATE", 1, "CSV", ","⟩

structure DagModel where
  tasks : List Task
  edges : List (String × String)
deriving DecidableEq

/-- One iteration of the `for table in TABLES_CONFIG` loop: create the two
tasks, add `previous_task >> dump_file_to_gcs` when a previous task exists,
add `dump_file_to_gcs >> load_to_bigquery`, remember the load task. -/
def dagStep (bucket : Option String)
    (acc : List Task × List (String × String) × Option String) (cfg : TableConfig) :
    List Task × List (String × String) × Option String :=
  (acc.1 ++ [mkStage cfg, mkLoad bucket cfg],
   (match acc.2.2 with
    | some p => acc.2.1 ++ [(p, taskId (mkStage cfg))]
    | none => acc.2.1) ++ [(taskId (mkStage cfg), taskId (mkLoad bucket cfg))],
   some (taskId (mkLoad bucket cfg)))

def buildDag (project_id : String) (bucket : Option String) : DagModel :=
  ⟨((TABLES_CONFIG project_id).foldl (dagStep bucket) ([], [], none)).1,
   ((TABLES_CONFIG project_id).foldl (dagStep bucket) ([], [], none)).2.1⟩

/-- The string-valued module globals bound by the time `TABLES_CONFIG` is
evaluated (line 123), as Python name lookup sees them.  The f-strings at
lines 127-265 reference the lowercase name `project_id`; only `PROJECT_ID`
is bound, so that lookup fails. -/
def stringBindings (env : Env) : String → Option (Option String) :=
  fun n =>
    if n = "GCS_BUCKET" then some (GCS_BUCKET env)
    else if n = "GDRIVE_FOLDER_ID" then some (GDRIVE_FOLDER_ID env)
    else if n = "PROJECT_ID" then some (PROJECT_ID env)
    else none

/-- Module import: read the three environment values (lines 21-23, no
validation), then evaluate `TABLES_CONFIG`.  Evaluating the first f-string
resolves the name `project_id`, which is unbound, so import raises
`NameError` for every environment — the DAG the loop would build from a
resolved project id is modelled by `buildDag`, parameterised over that id. -/
def moduleInit (env : Env) : Except String DagModel :=
  match stringBindings env ("project_id") with
  | none => .error ("NameError: name project_id is not defined")
  | some pid => .ok (buildDag (pid.getD ("None")) (GCS_BUCKET env))

/-- Consecutive pairs of a list: the edge set of a linear chain over it. -/
def consecPairs : List String → List (String × String)
  | a :: b :: t => (a, b) :: consecPairs (b :: t)
  | _ => []

/-! ## Execution semantics of one run (stage then load per table) -/

structure PState where
  gcs : String → Option Chars
  bq : String → Option (List (List Chars))

/-- BigQuery CSV bulk load of the staged object: `skip_leading_rows=1`,
`field_delimiter=','`. -/
def bqLoad (content : Chars) : List (List Chars) :=
  (((splitLinesL content).filter (fun l => !l.isEmpty)).drop 1).map splitFieldsL

def stageResult (folder : List DriveFile) (cfg : TableConfig) :
    Except PipelineError (String × Chars) :=
  gdrive_to_gcs folder (cfg.table_name ++ ".csv") cfg.gcs_folder_name

/-- Run one table's two tasks: on stage success the blob at the stage path is
overwritten, then the load task reads that blob and fully replaces the
destination table (`WRITE_TRUNCATE`).  On stage failure the chain halts and
the state is unchanged. -/
def runTable (folder : List DriveFile) (s : PState) (cfg : TableConfig) : PState :=
  match stageResult folder cfg with
  | .error _ => s
  | .ok (path, clean) =>
    match (fun p => if p = path then some clean else s.gcs p) path with
    | none => ⟨fun p => if p = path then some clean else s.gcs p, s.bq⟩
    | some staged =>
      ⟨fun p => if p = path then some clean else s.gcs p,
       fun t => if t = cfg.destination_table then some (bqLoad staged) else s.bq t⟩

def runPipeline (project_id : String) (folder : List DriveFile) (s : PState) : PState :=
  (TABLES_CONFIG project_id).foldl (runTable folder) s

/-- A state transformer that writes fixed values (independent of the incoming
state) to a fixed set of keys and leaves everything else alone. -/
def ConstWrite (f : PState → PState) : Prop :=
  ∃ wg : String → Option (Option Chars),
    ∃ wb : String → Option (Option (List (List Chars))),
      ∀ s : PState,
        (∀ p, (f s).gcs p = (wg p).getD (s.gcs p)) ∧
        (∀ t, (f s).bq t = (wb t).getD (s.bq t))

/-- The task ids the loop creates, in creation order. -/
def idsOf (bucket : Option String) (cfgs : List TableConfig) : List String :=
  (cfgs.map (fun c => [taskId (mkStage c), taskId (mkLoad bucket c)])).flatten

/-- The task ids of the assembled DAG, in chain order. -/
def chainIds : List String :=
  ["dump_gdrive_to_gcs_olist_closed_deals", "load_gcs_to_bq_olist_closed_deals",
   "dump_gdrive_to_gcs_olist_customers", "load_gcs_to_bq_olist_customers",
   "dump_gdrive_to_gcs_olist_geolocation", "load_gcs_to_bq_olist_geolocation",
   "dump_gdrive_to_gcs_olist_marketing_qualified_leads",
   "load_gcs_to_bq_olist_marketing_qualified_leads",
   "dump_gdrive_to_gcs_olist_order_items", "load_gcs_to_bq_olist_order_items",
   "dump_gdrive_to_gcs_olist_order_payments", "load_gcs_to_bq_olist_order_payments",
   "dump_gdrive_to_gcs_olist_order_reviews", "load_gcs_to_bq_olist_order_reviews",
   "dump_gdrive_to_gcs_olist_orders", "load_gcs_to_bq_olist_orders",
   "dump_gdrive_to_gcs_olist_products", "load_gcs_to_bq_olist_products",
   "dump_gdrive_to_gcs_olist_sellers", "load_gcs_to_bq_olist_sellers",
   "dump_gdrive_to_gcs_olist_product_category_name",
   "load_gcs_to_bq_olist_product_category_name"]

/-- Hypotheses under which a table is in the fixed-point domain of the
sanitizer: non-empty header of non-empty, distinct, special-character-free
names; every record exactly header-width; every cell special-character-free
and not a missing-value token; and every column containing a witness cell
that is not numeric-looking (broadly) nor boolean, so the column is
object-typed. -/
def CanonicalTable (hs : List Chars) (rss : List (List Chars)) : Prop :=
  hs ≠ [] ∧
  (∀ f ∈ hs, f ≠ []) ∧
  (∀ f ∈ hs, cleanCellB f = true) ∧
  hs.Nodup ∧
  (∀ r ∈ rss, r.length = hs.length) ∧
  (∀ r ∈ rss, ∀ c ∈ r, cleanCellB c = true ∧ isNA c = false) ∧
  (∀ i, i < hs.length → rss ≠ [] →
    ∃ r ∈ rss, numLikeBroad (r.getD i []) = false ∧ isBoolLit (r.getD i []) = false)

instance canonicalTableDecidable (hs : List Chars) (rss : List (List Chars)) :
    Decidable (CanonicalTable hs rss) := by
  unfold CanonicalTable
  infer_instance

/-! ## Helper lemmas about the DAG fold and the run semantics -/

theorem strAppendAssoc (a b c : String) : a ++ b ++ c = a ++ (b ++ c) :=
  String.ext (by simp only [String.data_append, List.append_assoc])

theorem dagFold_tasks (bucket : Option String) (cfgs : List TableConfig) :
    ∀ (ts : List Task) (es : List (String × String)) (pr : Option String),
      (cfgs.foldl (dagStep bucket) (ts, es, pr)).1 =
        ts ++ (cfgs.map (fun c => [mkStage c, mkLoad bucket c])).flatten := by
  induction cfgs with
  | nil => intro ts es pr; simp
  | cons c t ih =>
    intro ts es pr
    simp only [List.foldl_cons, dagStep]
    rw [ih]
    simp [List.append_assoc]

theorem mem_buildDag_tasks (pid : String) (bucket : Option String) (cfg : TableConfig)
    (h : cfg ∈ TABLES_CONFIG pid) :
    mkStage cfg ∈ (buildDag pid bucket).tasks ∧ mkLoad bucket cfg ∈ (buildDag pid bucket).tasks := by
  have ht : (buildDag pid bucket).tasks =
      ((TABLES_CONFIG pid).map (fun c => [mkStage c, mkLoad bucket c])).flatten := by
    show ((TABLES_CONFIG pid).foldl (dagStep bucket) ([], [], none)).1 = _
    rw [dagFold_tasks]
    rfl
  rw [ht]
  constructor
  · exact List.mem_flatten.mpr ⟨[mkStage cfg, mkLoad bucket cfg],
      List.mem_map.mpr ⟨cfg, h, rfl⟩, by simp⟩
  · exact List.mem_flatten.mpr ⟨[mkStage cfg, mkLoad bucket cfg],
      List.mem_map.mpr ⟨cfg, h, rfl⟩, by simp⟩

theorem idsOf_eq_map_taskId (bucket : Option String) (cfgs : List TableConfig) :
    ((cfgs.map (fun c => [mkStage c, mkLoad bucket c])).flatten).map taskId =
      idsOf bucket cfgs := by
  induction cfgs with
  | nil => rfl
  | cons c t ih =>
    simp only [idsOf, List.map_cons, List.flatten_cons, List.map_append] at ih ⊢
    simp [ih]

theorem dagFold_edges_some (bucket : Option String) (cfgs : List TableConfig) :
    ∀ (ts : List Task) (es : List (String × String)) (p : String),
      (cfgs.foldl (dagStep bucket) (ts, es, some p)).2.1 =
        es ++ consecPairs (p :: idsOf bucket cfgs) := by
  induction cfgs with
  | nil => intro ts es p; simp [idsOf, consecPairs]
  | cons c t ih =>
    intro ts es p
    simp only [List.foldl_cons, dagStep]
    rw [ih]
    simp [idsOf, consecPairs, List.append_assoc]

theorem dagFold_edges_none (bucket : Option String) (cfgs : List TableConfig) :
    ∀ (ts : List Task) (es : List (String × String)),
      (cfgs.foldl (dagStep bucket) (ts, es, none)).2.1 =
        es ++ consecPairs (idsOf bucket cfgs) := by
  cases cfgs with
  | nil => intro ts es; simp [idsOf, consecPairs]
  | cons c t =>
    intro ts es
    simp only [List.foldl_cons, dagStep]
    rw [dagFold_edges_some]
    simp [idsOf, consecPairs, List.append_assoc]

theorem constWrite_runTable (folder : List DriveFile) (cfg : TableConfig) :
    ConstWrite (fun s => runTable folder s cfg) := by
  cases h : stageResult folder cfg with
  | error e =>
    exact ⟨fun _ => none, fun _ => none, fun s =>
      ⟨fun p => by simp [runTable, h], fun t => by simp [runTable, h]⟩⟩
  | ok pc =>
    refine ⟨fun p => if p = pc.1 then some (some pc.2) else none,
      fun t => if t = cfg.destination_table then some (some (bqLoad pc.2)) else none,
      fun s => ⟨fun p => ?_, fun t => ?_⟩⟩
    · simp only [runTable, h]
      by_cases hp : p = pc.1 <;> simp [hp]
    · simp only [runTable, h]
      by_cases ht : t = cfg.destination_table <;> simp [ht]

theorem constWrite_comp (f g : PState → PState) (hf : ConstWrite f) (hg : ConstWrite g) :
    ConstWrite (fun s => g (f s)) := by
  obtain ⟨wgf, wbf, hfs⟩ := hf
  obtain ⟨wgg, wbg, hgs⟩ := hg
  refine ⟨fun p => match wgg p with | some v => some v | none => wgf p,
    fun t => match wbg t with | some v => some v | none => wbf t,
    fun s => ⟨fun p => ?_, fun t => ?_⟩⟩
  · rw [(hgs (f s)).1 p, (hfs s).1 p]
    rcases hk : wgg p with _ | v <;> simp [hk]
  · rw [(hgs (f s)).2 t, (hfs s).2 t]
    rcases hk : wbg t with _ | v <;> simp [hk]

theorem constWrite_fold (folder : List DriveFile) :
    ∀ cfgs : List TableConfig, ConstWrite (fun s => cfgs.foldl (runTable folder) s)
  | [] => ⟨fun _ => none, fun _ => none, fun _ => ⟨fun _ => rfl, fun _ => rfl⟩⟩
  | c :: t =>
    constWrite_comp (fun s => runTable folder s c) (fun s => t.foldl (runTable folder) s)
      (constWrite_runTable folder c) (constWrite_fold folder t)

theorem constWrite_idem (f : PState → PState) (hf : ConstWrite f) (s : PState) :
    (∀ t, (f (f s)).bq t = (f s).bq t) ∧ (∀ p, (f (f s)).gcs p = (f s).gcs p) := by
  obtain ⟨wg, wb, h⟩ := hf
  constructor
  · intro t
    rw [(h (f s)).2 t, (h s).2 t]
    cases wb t <;> simp
  · intro p
    rw [(h (f s)).1 p, (h s).1 p]
    cases wg p <;> simp

/-! ## Round-trip lemmas: parsing a canonically serialised table -/

/-- C1 counterexample: on the spec's concrete scenario the sanitizer does not
return `"a,b,c\n1,2,3\n6,7,8\n"`: the short row `4,5` is not dropped (pandas
pads it with a missing value), and the padded column is re-rendered as floats. -/
theorem sanitize_scenario_counterexample :
    sanitizeDecoded (("a,b,c\n1,2,3\n4,5\n6,7,8\n").data) ≠
      Except.ok (("a,b,c\n1,2,3\n6,7,8\n").data) := by
  decide

/-- C1 (amended): the sanitizer keeps exactly the data records whose field
count does not exceed the expected width — the larger of the header's and
the first data record's field counts, since the tokenizer pads short records
up to the running expectation: records wider than that are dropped
(`on_bad_lines='skip'`), narrower records are kept and padded with missing
values, and kept values are re-rendered per inferred column type.  On the
scenario input the short row `4,5` is kept padded and column `c` is
re-rendered as floats, giving `"a,b,c\n1,2,3.0\n4,5,\n6,7,8.0\n"`; a
genuinely over-wide row `4,5,6,7` is dropped; and after a narrow first data
record a full-width record is still kept (`"a,b,c\n1,2\n3,4,5\n"`). -/
theorem sanitize_row_policy :
    (∀ (s hl : Chars) (dl : List Chars),
      (splitLinesL s).filter (fun l => !l.isEmpty) = hl :: dl →
      ∃ names rows, readCsv s = some (names, rows) ∧
        rows.length = ((dl.map splitFieldsL).filter
          (fun r => decide (r.length ≤
            expectedWidth (splitFieldsL hl) (dl.map splitFieldsL)))).length) ∧
    sanitizeDecoded (("a,b,c\n1,2,3\n4,5\n6,7,8\n").data) =
      Except.ok (("a,b,c\n1,2,3.0\n4,5,\n6,7,8.0\n").data) ∧
    sanitizeDecoded (("a,b,c\n1,2,3\n4,5,6,7\n6,7,8\n").data) =
      Except.ok (("a,b,c\n1,2,3\n6,7,8\n").data) ∧
    sanitizeDecoded (("a,b,c\n1,2\n3,4,5\n").data) =
      Except.ok (("a,b,c\n1,2,\n3,4,5.0\n").data) := by
  refine ⟨?_, by decide, by decide, by decide⟩
  intro s hl dl hf
  simp only [readCsv, hf]
  exact ⟨_, _, rfl, by simp⟩

/-- Closed instance of `sanitize_row_policy`: the output record count equals
the count of records within the expected width. -/
theorem sanitize_row_policy_witness :
    ∃ names rows, readCsv (("x\n1,2\n").data) = some (names, rows) ∧
      rows.length = (((("1,2").data :: []).map splitFieldsL).filter
        (fun r => decide (r.length ≤ expectedWidth (splitFieldsL (("x").data))
          ((("1,2").data :: []).map splitFieldsL)))).length :=
  sanitize_row_policy.1 (("x\n1,2\n").data) (("x").data) ((("1,2").data) :: []) (by decide)

/-! ## Claim C2: are surviving fields emitted verbatim? -/

/-- C3 counterexample: with all three environment values absent, startup
fails with a `NameError` from the undefined name `project_id` — not with a
configuration error about the missing values — and the identical failure
occurs when all three values are present, so the failure is not a missing-
configuration check at all; the three reads themselves yield `none` with no
default and no validation. -/
theorem startup_nameError_counterexample :
    moduleInit (fun _ => none) = .error ("NameError: name project_id is not defined") ∧
    moduleInit (fun _ => some ("x")) = .error ("NameError: name project_id is not defined") ∧
    GCS_BUCKET (fun _ => none) = none ∧
    GDRIVE_FOLDER_ID (fun _ => none) = none ∧
    PROJECT_ID (fun _ => none) = none :=
  ⟨rfl, rfl, rfl, rfl, rfl⟩

/-- C3 (amended): the three environment values are read with no defaults
(absence yields a null value) and are never validated — no fail-fast
configuration check exists.  Module import does fail, but unconditionally
and not with a configuration error: evaluating `TABLES_CONFIG` raises
`NameError` on the unbound name `project_id` for every environment, absent
or present values alike. -/
theorem env_no_defaults_startup_nameError (env : Env) :
    moduleInit env = .error ("NameError: name project_id is not defined") ∧
    GCS_BUCKET env = env ("GCS_BUCKET_NAME") ∧
    GDRIVE_FOLDER_ID env = env ("GDRIVE_FOLDER_ID") ∧
    PROJECT_ID env = env ("GCP_PROJECT_ID") :=
  ⟨rfl, rfl, rfl, rfl⟩

/-- Closed instance of `env_no_defaults_startup_nameError`. -/
theorem env_no_defaults_startup_nameError_witness :
    moduleInit (fun _ => some ("b")) = .error ("NameError: name project_id is not defined") :=
  (env_no_defaults_startup_nameError (fun _ => some ("b"))).1

/-! ## Claim C5: fetch behaviour of `gdrive_to_gcs` -/

/-- C5: zero matching non-trashed files raise NotFound (for the lookup and
for the whole transfer); exactly one match downloads that file's full byte
content unmodified, and any successful transfer output is the preprocessing
of exactly those bytes, uploaded at `{folder}/{file_name}`. -/
theorem fetch_notFound_and_single_match (folder : List DriveFile) (fileName gf : String) :
    (matchingFiles folder fileName = [] →
      gdrive_fetch folder fileName = .error .notFound ∧
      gdrive_to_gcs folder fileName gf = .error .notFound) ∧
    (∀ f : DriveFile, matchingFiles folder fileName = [f] →
      gdrive_fetch folder fileName = .ok f.content ∧
      ∀ out, gdrive_to_gcs folder fileName gf = .ok out →
        ∃ clean, preprocess_csv f.content = .ok clean ∧
          out = (gf ++ "/" ++ fileName, clean)) := by
  constructor
  · intro h
    constructor
    · simp [gdrive_fetch, h]
    · simp [gdrive_to_gcs, gdrive_fetch, h]
  · intro f h
    constructor
    · simp [gdrive_fetch, h]
    · intro out hout
      have hf : gdrive_fetch folder fileName = .ok f.content := by simp [gdrive_fetch, h]
      simp only [gdrive_to_gcs, hf] at hout
      rcases hp : preprocess_csv f.content with e | clean
      · simp only [hp] at hout
        cases hout
      · simp only [hp] at hout
        exact ⟨clean, rfl, (Except.ok.inj hout).symm⟩

/-- Closed instance of `fetch_notFound_and_single_match`: an empty folder
raises NotFound, and a one-file folder fetches that file's bytes. -/
theorem fetch_notFound_and_single_match_witness :
    gdrive_fetch [] ("t.csv") = .error .notFound ∧
    gdrive_fetch [⟨"t.csv", false, [97, 10, 49, 10]⟩] ("t.csv") = .ok [97, 10, 49, 10] :=
  ⟨((fetch_notFound_and_single_match [] ("t.csv") ("data")).1 (by decide)).1,
   ((fetch_notFound_and_single_match [⟨"t.csv", false, [97, 10, 49, 10]⟩] ("t.csv")
      ("data")).2 ⟨"t.csv", false, [97, 10, 49, 10]⟩ (by decide)).1⟩

/-! ## Claim C6: when `preprocess_csv` signals an error -/

/-- C6: `preprocess_csv` returns normally exactly on inputs that parse as
tabular data at all (decodable bytes with at least one non-blank line);
row-level defects never make it raise. -/
theorem preprocess_error_iff_unparseable (bs : List Nat) :
    isOkE (preprocess_csv bs) = parseableTabular bs := by
  unfold preprocess_csv parseableTabular
  cases hd : decodeUtf8 bs with
  | none => rfl
  | some cs =>
    unfold sanitizeDecoded
    cases hf : (splitLinesL cs).filter (fun l => !l.isEmpty) with
    | nil => simp [readCsv, hf, isOkE]
    | cons h t => simp [readCsv, hf, isOkE]

/-- Closed instances of `preprocess_error_iff_unparseable`: an undecodable
byte, an empty input, and a decodable input with a defective row. -/
theorem preprocess_error_iff_unparseable_witness :
    isOkE (preprocess_csv [128]) = parseableTabular [128] ∧
    isOkE (preprocess_csv []) = parseableTabular [] ∧
    isOkE (preprocess_csv [97, 44, 98, 10, 49, 10]) = parseableTabular [97, 44, 98, 10, 49, 10] :=
  ⟨preprocess_error_iff_unparseable [128], preprocess_error_iff_unparseable [],
   preprocess_error_iff_unparseable [97, 44, 98, 10, 49, 10]⟩

/-! ## Claim C7: the load task loads exactly the staged object -/

/-- C7: for every registry entry the DAG contains its stage and load tasks;
the load task's single source object is exactly the blob path the stage task
uploads to, in the same bucket, with the entry's destination table and
declared schema, `WRITE_TRUNCATE`, one skipped leading row, CSV format and a
comma delimiter. -/
theorem load_matches_stage (pid : String) (bucket : Option String) (cfg : TableConfig)
    (h : cfg ∈ TABLES_CONFIG pid) :
    mkStage cfg ∈ (buildDag pid bucket).tasks ∧
    mkLoad bucket cfg ∈ (buildDag pid bucket).tasks ∧
    ∃ path : String,
      stagePath (mkStage cfg) = some path ∧
      ∃ p : LoadParams,
        loadParamsOf (mkLoad bucket cfg) = some p ∧
        p.source_objects = [path] ∧
        p.bucket = bucket ∧
        p.destination_project_dataset_table = cfg.destination_table ∧
        p.schema_fields = cfg.schema_fields ∧
        p.write_disposition = "WRITE_TRUNCATE" ∧
        p.skip_leading_rows = 1 ∧
        p.source_format = "CSV" ∧
        p.field_delimiter = "," := by
  refine ⟨(mem_buildDag_tasks pid bucket cfg h).1, (mem_buildDag_tasks pid bucket cfg h).2,
    cfg.gcs_folder_name ++ "/" ++ cfg.table_name ++ ".csv", ?_, _, rfl, rfl, rfl, rfl, rfl,
    rfl, rfl, rfl, rfl⟩
  simp only [mkStage, stagePath, strAppendAssoc]

/-- Closed instance of `load_matches_stage` at the last registry entry. -/
theorem load_matches_stage_witness :
    mkStage ⟨"olist_product_category_name", "data",
      "p" ++ ".ecommerce_data.olist_product_category_name",
      [⟨"product_category_name", "STRING", "NULLABLE"⟩,
       ⟨"product_category_name_english", "STRING", "NULLABLE"⟩]⟩ ∈
      (buildDag ("p") (some ("b"))).tasks :=
  (load_matches_stage ("p") (some ("b"))
    ⟨"olist_product_category_name", "data",
      "p" ++ ".ecommerce_data.olist_product_category_name",
      [⟨"product_category_name", "STRING", "NULLABLE"⟩,
       ⟨"product_category_name_english", "STRING", "NULLABLE"⟩]⟩
    (by simp [TABLES_CONFIG])).1

/-! ## Claim C8: the whole DAG is one linear chain in registry order -/

set_option maxHeartbeats 1000000 in
/-- C8: the assembled DAG's tasks are, in order, stage then load for each
registry entry in registry order; its edge set is exactly the consecutive
pairs of that task sequence (so every stage precedes its load and every load
precedes the next table's stage), and the task ids are distinct, making the
run a single linear chain over all tasks. -/
theorem dag_single_linear_chain (pid : String) (bucket : Option String) :
    (buildDag pid bucket).tasks.map taskId = chainIds ∧
    (buildDag pid bucket).edges = consecPairs chainIds ∧
    chainIds.Nodup := by
  have h1 : (buildDag pid bucket).tasks.map taskId = chainIds := by rfl
  have h2 : (buildDag pid bucket).edges = consecPairs chainIds := by
    have e1 : (buildDag pid bucket).edges = consecPairs (idsOf bucket (TABLES_CONFIG pid)) := by
      show ((TABLES_CONFIG pid).foldl (dagStep bucket) ([], [], none)).2.1 = _
      rw [dagFold_edges_none]
      rfl
    have e3 : ((TABLES_CONFIG pid).map (fun c => [mkStage c, mkLoad bucket c])).flatten =
        (buildDag pid bucket).tasks := by
      show _ = ((TABLES_CONFIG pid).foldl (dagStep bucket) ([], [], none)).1
      rw [dagFold_tasks]
      rfl
    have e2 : idsOf bucket (TABLES_CONFIG pid) = chainIds := by
      rw [← idsOf_eq_map_taskId, e3, h1]
    rw [e1, e2]
  exact ⟨h1, h2, by decide⟩

/-- Closed instance of `dag_single_linear_chain`. -/
theorem dag_single_linear_chain_witness :
    (buildDag ("p") none).edges = consecPairs chainIds :=
  (dag_single_linear_chain ("p") none).2.1

/-! ## Claim C9: re-running the pipeline is idempotent on the warehouse -/

/-- C9: running the full pipeline a second time against identical source
content leaves every destination table (and every staged object) with content
identical to the first run: each run overwrites the staged object in place and
fully replaces the table, so nothing is duplicated or accumulated. -/
theorem rerun_same_final_state (pid : String) (folder : List DriveFile) (s : PState) :
    (∀ t, (runPipeline pid folder (runPipeline pid folder s)).bq t =
      (runPipeline pid folder s).bq t) ∧
    (∀ p, (runPipeline pid folder (runPipeline pid folder s)).gcs p =
      (runPipeline pid folder s).gcs p) :=
  constWrite_idem (fun st => (TABLES_CONFIG pid).foldl (runTable folder) st)
    (constWrite_fold folder (TABLES_CONFIG pid)) s

/-- Closed instance of `rerun_same_final_state`. -/
theorem rerun_same_final_state_witness :
    (runPipeline ("p") [] (runPipeline ("p") [] ⟨fun _ => none, fun _ => none⟩)).bq
        ("p" ++ ".ecommerce_data.olist_orders") =
      (runPipeline ("p") [] ⟨fun _ => none, fun _ => none⟩).bq
        ("p" ++ ".ecommerce_data.olist_orders") :=
  (rerun_same_final_state ("p") [] ⟨fun _ => none, fun _ => none⟩).1
    ("p" ++ ".ecommerce_data.olist_orders")

/-! ## Claim C10: registry invariants -/

/-- C10: every registry entry stages into the folder `data`, declares every
schema field with type `STRING` and mode `NULLABLE`, and targets the fixed
dataset `ecommerce_data` qualified by the entry's own table name (under the
project prefix the source leaves as the free name `project_id`). -/
theorem allStringNullable (l : List SchemaField)
    (h : (l.all (fun f => f.type == "STRING" && f.mode == "NULLABLE")) = true) :
    ∀ f ∈ l, f.type = "STRING" ∧ f.mode = "NULLABLE" := by
  intro f hf
  have hfa := List.all_eq_true.mp h f hf
  simpa using hfa

theorem registry_invariants (pid : String) (cfg : TableConfig)
    (h : cfg ∈ TABLES_CONFIG pid) :
    cfg.gcs_folder_name = "data" ∧
    (∀ f ∈ cfg.schema_fields, f.type = "STRING" ∧ f.mode = "NULLABLE") ∧
    cfg.destination_table = pid ++ (".ecommerce_data." ++ cfg.table_name) := by
  simp only [TABLES_CONFIG, List.mem_cons, List.not_mem_nil, or_false] at h
  rcases h with rfl | rfl | rfl | rfl | rfl | rfl | rfl | rfl | rfl | rfl | rfl <;>
    exact ⟨rfl, allStringNullable _ rfl, rfl⟩

/-- Closed instance of `registry_invariants` at the `olist_sellers` entry. -/
theorem registry_invariants_witness :
    (⟨"olist_sellers", "data", "p" ++ ".ecommerce_data.olist_sellers",
      [⟨"seller_id", "STRING", "NULLABLE"⟩,
       ⟨"seller_zip_code_prefix", "STRING", "NULLABLE"⟩,
       ⟨"seller_city", "STRING", "NULLABLE"⟩,
       ⟨"seller_state", "STRING", "NULLABLE"⟩]⟩ : TableConfig).gcs_folder_name = "data" :=
  (registry_invariants ("p") _ (by simp [TABLES_CONFIG])).1

end Ecom
